import Mathlib

/-!
Verification of the mousetester-py event-tracking core.

This file gives a shallow embedding of the two trackers of the repository:
the scalar variant of mouse-xcount.py (net horizontal movement) and the path
variant of mousetester.py (timestamped cumulative path), together with the
device enumeration function find_all_mice that both files share verbatim.

Conventions of the embedding: evdev event type and code fields are natural
numbers, event values are integers, and timestamps (floats in Python) are
modelled as integers, which preserves their ordering and equality; Python
calls that may raise are modelled by explicit result types; the background
thread's event loop is modelled as a fold over the finite prefix of the
event stream that the loop processes, and the grab/ungrab resource behaviour
of its try/except/finally shape is modelled as an explicit action trace.
-/

namespace Evdev

/-- Linux input event type for relative axis motion (ecodes.EV_REL). -/
def EV_REL : Nat := 2

/-- Key and button event type (ecodes.EV_KEY), an example of a type other
than EV_REL. -/
def EV_KEY : Nat := 1

/-- Relative horizontal axis code (ecodes.REL_X). -/
def REL_X : Nat := 0

/-- Relative vertical axis code (ecodes.REL_Y). -/
def REL_Y : Nat := 1

/-- Relative wheel axis code (ecodes.REL_WHEEL), an example of a relative
axis code other than REL_X and REL_Y. -/
def REL_WHEEL : Nat := 8

/-- An evdev input event as yielded by device.read_loop(): its type, code,
signed value, and the value of event.timestamp(). -/
structure InputEvent where
  type : Nat
  code : Nat
  value : Int
  timestamp : Int
deriving Repr, DecidableEq

end Evdev

open Evdev

/-- Sum of the values of the horizontal relative-motion events (type EV_REL,
code REL_X) of a list; vocabulary for the claims about accumulated totals. -/
def sumX : List InputEvent → Int
  | [] => 0
  | e :: rest =>
    (if e.type = EV_REL then if e.code = REL_X then e.value else 0 else 0) + sumX rest

/-- Sum of the values of the vertical relative-motion events (type EV_REL,
code REL_Y) of a list. -/
def sumY : List InputEvent → Int
  | [] => 0
  | e :: rest =>
    (if e.type = EV_REL then if e.code = REL_Y then e.value else 0 else 0) + sumY rest

/-- Timestamps of the EV_REL events of a list, in stream order. -/
def relTimestamps : List InputEvent → List Int
  | [] => []
  | e :: rest =>
    if e.type = EV_REL then e.timestamp :: relTimestamps rest else relTimestamps rest

/-- A list of integers is non-decreasing (statement vocabulary). -/
def nondecreasingInt : List Int → Bool
  | [] => true
  | [_] => true
  | a :: b :: rest => decide (a ≤ b) && nondecreasingInt (b :: rest)

/-- Outcome that start_tracking communicates: either the thread was spawned,
or the method printed "Tracking is already in progress." and returned without
spawning anything (both files, identical code). -/
inductive StartOutcome where
  | started
  | alreadyInProgress
deriving Repr, DecidableEq

/-- Outcome that stop_tracking communicates: the "Tracking stopped." success
message, a hypothetical shutdown-timeout report (never produced by the code;
listed so the claims about it can be stated), or the silent no-op branch. -/
inductive StopOutcome where
  | stoppedOk
  | shutdownTimeout
  | noop
deriving Repr, DecidableEq

/-- What one iteration of the blocking read loop observes: an event read
while _is_running was observed true, the stop flag observed false (the loop
breaks), or an exception raised by the read. -/
inductive LoopStep where
  | ev (e : InputEvent)
  | stopSignal
  | readError
deriving Repr, DecidableEq

/-- Device and shared-state actions of an event loop, in trace order: the
exclusive grab, the release, and a lock-protected mutation of accumulated
state. -/
inductive DeviceAction where
  | grab
  | ungrab
  | update
deriving Repr, DecidableEq

/-- Number of ungrab actions in a trace. -/
def countUngrab : List DeviceAction → Nat
  | [] => 0
  | DeviceAction.ungrab :: rest => 1 + countUngrab rest
  | _ :: rest => countUngrab rest

namespace MouseXCount

/-- State of mouse-xcount.py's MouseTracker (lines 135-150): the thread slot
(None or a live Thread, modelled by a Bool), the _is_running flag and the
accumulated _total_x_movement. -/
structure MouseTracker where
  tracking_thread : Bool
  is_running : Bool
  total_x_movement : Int
deriving Repr, DecidableEq

/-- The state made by MouseTracker.__init__ (mouse-xcount.py lines 135-150):
no thread, not running, total 0. -/
def MouseTracker.init : MouseTracker :=
  { tracking_thread := false, is_running := false, total_x_movement := 0 }

/-- The body of the event loop for one processed event (mouse-xcount.py
lines 164-167): only EV_REL events with code REL_X add their value to the
total; everything else is ignored. -/
def processEvent (total : Int) (e : InputEvent) : Int :=
  if e.type = EV_REL then
    if e.code = REL_X then total + e.value
    else total
  else total

/-- The accumulation that _event_loop performs over the events it processes,
i.e. the prefix of the stream read while _is_running stayed true
(mouse-xcount.py lines 161-167). -/
def runEvents (total : Int) (events : List InputEvent) : Int :=
  events.foldl processEvent total

/-- Effect of the event loop's processing on the tracker state. -/
def event_loop_accumulate (t : MouseTracker) (events : List InputEvent) : MouseTracker :=
  { t with total_x_movement := runEvents t.total_x_movement events }

/-- get_total_x_movement (mouse-xcount.py lines 192-200): the total, read
under the lock. -/
def get_total_x_movement (t : MouseTracker) : Int := t.total_x_movement

/-- start_tracking (mouse-xcount.py lines 174-182): if _tracking_thread is
not None, print "Tracking is already in progress." and return without
spawning; otherwise set _is_running and spawn the event-loop thread. -/
def start_tracking (t : MouseTracker) : MouseTracker × StartOutcome :=
  if t.tracking_thread then (t, StartOutcome.alreadyInProgress)
  else ({ t with is_running := true, tracking_thread := true }, StartOutcome.started)

/-- stop_tracking (mouse-xcount.py lines 184-190): when a thread exists and
_is_running is set, clear the flag, join with a 1.0-second timeout, clear the
thread slot and print "Tracking stopped."; otherwise do nothing. The
argument threadTerminates models whether the thread actually finished within
the join timeout; the code never inspects the join result, so neither the
resulting state nor the outcome depends on it. -/
def stop_tracking (t : MouseTracker) (_threadTerminates : Bool) :
    MouseTracker × StopOutcome :=
  if t.tracking_thread ∧ t.is_running then
    ({ t with is_running := false, tracking_thread := false }, StopOutcome.stoppedOk)
  else (t, StopOutcome.noop)

/-- A full tracking session: start_tracking, the spawned loop processing a
finite prefix of events, then stop_tracking. When start_tracking reports
that tracking is already in progress, no loop is spawned and nothing is
accumulated. -/
def runSession (t : MouseTracker) (events : List InputEvent) : MouseTracker :=
  match start_tracking t with
  | (t1, StartOutcome.alreadyInProgress) => t1
  | (t1, StartOutcome.started) =>
    (stop_tracking (event_loop_accumulate t1 events) true).1

/-- Device actions of the for-loop body of _event_loop (mouse-xcount.py
lines 161-167): each processed REL_X event updates the total under the lock;
a stop signal breaks out of the loop, and a raised read error leaves the
loop for the except clause of line 168. -/
def loopBody : List LoopStep → List DeviceAction
  | [] => []
  | LoopStep.stopSignal :: _ => []
  | LoopStep.readError :: _ => []
  | LoopStep.ev e :: rest =>
    (if e.type = EV_REL ∧ e.code = REL_X then [DeviceAction.update] else []) ++ loopBody rest

/-- Device-action trace of _event_loop (mouse-xcount.py lines 152-172): the
grab attempt opens the try block; if it raises, the except clause catches it
and the finally clause still runs; otherwise the loop body runs, and on every
way out of it (normal break, end of stream, raised error) the finally clause
invokes ungrab. -/
def eventLoopActions (grabOk : Bool) (steps : List LoopStep) : List DeviceAction :=
  if grabOk then (DeviceAction.grab :: loopBody steps) ++ [DeviceAction.ungrab]
  else [DeviceAction.grab] ++ [DeviceAction.ungrab]

end MouseXCount

namespace MouseTester

/-- A recorded path point: the (timestamp, x, y) tuples of path_data
(mousetester.py line 134). -/
structure PathPoint where
  timestamp : Int
  x : Int
  y : Int
deriving Repr, DecidableEq

/-- State of mousetester.py's MouseTracker (lines 120-137): thread slot,
running flag, the recorded path_data and the cumulative position. -/
structure MouseTracker where
  tracking_thread : Bool
  is_running : Bool
  path_data : List PathPoint
  current_x : Int
  current_y : Int
deriving Repr, DecidableEq

/-- The state made by MouseTracker.__init__ (mousetester.py lines 120-137):
no thread, not running, empty path, position (0, 0). -/
def MouseTracker.init : MouseTracker :=
  { tracking_thread := false, is_running := false, path_data := []
    current_x := 0, current_y := 0 }

/-- The body of the event loop for one processed event (mousetester.py
lines 155-163): a REL_X event adds its value to _current_x, a REL_Y event
adds the negated value to _current_y, and every EV_REL event of any code
then appends (event.timestamp(), _current_x, _current_y) to path_data;
non-EV_REL events are ignored entirely. -/
def stepEvent (t : MouseTracker) (e : InputEvent) : MouseTracker :=
  if e.type = EV_REL then
    if e.code = REL_X then
      { t with current_x := t.current_x + e.value
               path_data := t.path_data ++ [⟨e.timestamp, t.current_x + e.value, t.current_y⟩] }
    else if e.code = REL_Y then
      { t with current_y := t.current_y + (- e.value)
               path_data := t.path_data ++ [⟨e.timestamp, t.current_x, t.current_y + (- e.value)⟩] }
    else
      { t with path_data := t.path_data ++ [⟨e.timestamp, t.current_x, t.current_y⟩] }
  else t

/-- The path recording that _event_loop performs (mousetester.py
lines 139-163): append the start point (time.monotonic(), _current_x,
_current_y), then process the prefix of the stream read while _is_running
stayed true. -/
def event_loop_record (t : MouseTracker) (startTime : Int)
    (events : List InputEvent) : MouseTracker :=
  List.foldl stepEvent
    { t with path_data := t.path_data ++ [⟨startTime, t.current_x, t.current_y⟩] } events

/-- get_path (mousetester.py lines 188-196): a copy of path_data taken under
the lock. -/
def get_path (t : MouseTracker) : List PathPoint := t.path_data

/-- start_tracking (mousetester.py lines 170-178), identical to the scalar
variant's: refuse when a thread slot is occupied, otherwise spawn. -/
def start_tracking (t : MouseTracker) : MouseTracker × StartOutcome :=
  if t.tracking_thread then (t, StartOutcome.alreadyInProgress)
  else ({ t with is_running := true, tracking_thread := true }, StartOutcome.started)

/-- stop_tracking (mousetester.py lines 180-186), identical to the scalar
variant's: the join result is never inspected, so the outcome cannot depend
on whether the thread terminated within the 1.0-second timeout. -/
def stop_tracking (t : MouseTracker) (_threadTerminates : Bool) :
    MouseTracker × StopOutcome :=
  if t.tracking_thread ∧ t.is_running then
    ({ t with is_running := false, tracking_thread := false }, StopOutcome.stoppedOk)
  else (t, StopOutcome.noop)

/-- A full tracking session of the path variant: start_tracking, the spawned
loop recording from startTime over a finite prefix of events, then
stop_tracking. -/
def runSession (t : MouseTracker) (startTime : Int)
    (events : List InputEvent) : MouseTracker :=
  match start_tracking t with
  | (t1, StartOutcome.alreadyInProgress) => t1
  | (t1, StartOutcome.started) =>
    (stop_tracking (event_loop_record t1 startTime events) true).1

/-- The list of path points that the fold of stepEvent appends when started
from position (x, y): a direct recursion on the event list, proved below to
characterise event_loop_record. -/
def genPoints (x y : Int) : List InputEvent → List PathPoint
  | [] => []
  | e :: rest =>
    if e.type = EV_REL then
      if e.code = REL_X then
        ⟨e.timestamp, x + e.value, y⟩ :: genPoints (x + e.value) y rest
      else if e.code = REL_Y then
        ⟨e.timestamp, x, y + (- e.value)⟩ :: genPoints x (y + (- e.value)) rest
      else
        ⟨e.timestamp, x, y⟩ :: genPoints x y rest
    else genPoints x y rest

/-- Statement vocabulary for the cumulative-sum invariant: pairing path
points one to one with the events that produced them, each point carries its
event's timestamp and equals its predecessor moved by the event's delta on
the corresponding axis (added to x for horizontal, subtracted from y for
vertical) with the other axis unchanged. -/
def chainFrom : PathPoint → List PathPoint → List InputEvent → Bool
  | _, [], [] => true
  | p, q :: qs, e :: es =>
    (if e.code = REL_X then
       decide (q.x = p.x + e.value ∧ q.y = p.y ∧ q.timestamp = e.timestamp)
     else
       decide (q.x = p.x ∧ q.y = p.y - e.value ∧ q.timestamp = e.timestamp))
      && chainFrom q qs es
  | _, _, _ => false

/-- Statement vocabulary: the timestamps of a recorded path are monotonically
non-decreasing. -/
def timestampsMonotone (l : List PathPoint) : Bool :=
  nondecreasingInt (l.map PathPoint.timestamp)

/-- Device actions of the for-loop body of _event_loop (mousetester.py
lines 152-163): each processed EV_REL event mutates the accumulated state
(position update and path append) under the lock; a stop signal breaks out,
and a raised read error leaves the loop for the except clause of line 164. -/
def loopBody : List LoopStep → List DeviceAction
  | [] => []
  | LoopStep.stopSignal :: _ => []
  | LoopStep.readError :: _ => []
  | LoopStep.ev e :: rest =>
    (if e.type = EV_REL then [DeviceAction.update] else []) ++ loopBody rest

/-- Device-action trace of _event_loop (mousetester.py lines 139-168): grab,
then the lock-protected append of the start point, then the loop body; the
finally clause of line 166 invokes ungrab on every exit, including a grab
failure caught by the except clause. -/
def eventLoopActions (grabOk : Bool) (steps : List LoopStep) : List DeviceAction :=
  if grabOk then (DeviceAction.grab :: DeviceAction.update :: loopBody steps)
      ++ [DeviceAction.ungrab]
  else [DeviceAction.grab] ++ [DeviceAction.ungrab]

end MouseTester

namespace Enumeration

/-- Result of os.listdir on /dev/input: the listing, a raised
FileNotFoundError, or a raised PermissionError (an OSError that the except
clause of find_all_mice does not catch). -/
inductive ListDirResult where
  | ok (entries : List String)
  | fileNotFound
  | permissionDenied
deriving Repr, DecidableEq

/-- A device as seen through InputDevice: its name and its capability
dictionary (event-type keys mapped to lists of codes), as returned by
device.capabilities(verbose=False). -/
structure DeviceInfo where
  name : String
  capabilities : List (Nat × List Nat)
deriving Repr, DecidableEq

/-- Result of InputDevice(path) followed by device.capabilities(): the
device's info, or a raised IOError/OSError (permission denied, busy,
transient I/O error). -/
inductive OpenResult where
  | ok (d : DeviceInfo)
  | ioError
deriving Repr, DecidableEq

/-- A Python call that either returns a value or raises an exception that
propagates to the caller. -/
inductive PyResult (α : Type) where
  | ok (val : α)
  | raised
deriving Repr, DecidableEq

/-- Python's str.startswith, modelled on the underlying character lists so
that it evaluates by computation. -/
def startswith (s pre : String) : Bool := pre.data.isPrefixOf s.data

/-- Lookup in the modelled capability dictionary with a default, mirroring
capabilities.get(key, []). -/
def capGet (caps : List (Nat × List Nat)) (k : Nat) : List Nat :=
  match caps.find? (fun p => p.1 == k) with
  | some p => p.2
  | none => []

/-- Membership test of a key in the capability dictionary, mirroring
"ecodes.EV_REL in capabilities". -/
def capHasKey (caps : List (Nat × List Nat)) (k : Nat) : Bool :=
  (caps.find? (fun p => p.1 == k)).isSome

/-- The mouse-likeness test of find_all_mice (mouse-xcount.py lines 30-32,
mousetester.py lines 32-34): EV_REL is a capability key and both REL_X and
REL_Y appear in capabilities.get(EV_REL, []). -/
def isMouse (d : DeviceInfo) : Bool :=
  capHasKey d.capabilities EV_REL
    && (capGet d.capabilities EV_REL).contains REL_X
    && (capGet d.capabilities EV_REL).contains REL_Y

/-- find_all_mice (mouse-xcount.py lines 10-37, textually identical in
mousetester.py lines 12-39), with its environment passed explicitly: the
result of listing /dev/input and the open-and-query behaviour of each path.
The listing is filtered to names starting with "event" and joined to the
directory; only FileNotFoundError from the listing is caught (returning an
empty list); a per-device IOError/OSError is caught and that device is
skipped. -/
def find_all_mice (listing : ListDirResult)
    (openDev : String → OpenResult) : PyResult (List (String × String)) :=
  match listing with
  | ListDirResult.fileNotFound => PyResult.ok []
  | ListDirResult.permissionDenied => PyResult.raised
  | ListDirResult.ok entries =>
    PyResult.ok
      (((entries.filter (fun fn => startswith fn "event")).map
          (fun fn => "/dev/input/" ++ fn)).foldl
        (fun mice path =>
          match openDev path with
          | OpenResult.ioError => mice
          | OpenResult.ok d =>
            if isMouse d then mice ++ [(path, d.name)] else mice) [])

/-- A concrete open-and-query environment used as an explicit instance in
the enumeration theorems: event1 is an accessible two-axis mouse, every
other path fails to open. -/
def exampleOpen (path : String) : OpenResult :=
  if path = "/dev/input/event1" then
    OpenResult.ok
      { name := "Example Mouse"
        capabilities := [(EV_REL, [REL_X, REL_Y]), (EV_KEY, [272])] }
  else OpenResult.ioError

end Enumeration

/-! ## Helper lemmas -/

theorem runEvents_add (events : List InputEvent) :
    ∀ total : Int, MouseXCount.runEvents total events = total + sumX events := by
  induction events with
  | nil => intro total; simp [MouseXCount.runEvents, sumX]
  | cons e rest ih =>
    intro total
    simp only [MouseXCount.runEvents, List.foldl_cons] at ih ⊢
    rw [ih]
    simp only [MouseXCount.processEvent, sumX]
    split_ifs <;> omega

theorem countUngrab_append (l1 l2 : List DeviceAction) :
    countUngrab (l1 ++ l2) = countUngrab l1 + countUngrab l2 := by
  induction l1 with
  | nil => simp [countUngrab]
  | cons a rest ih =>
    cases a <;> simp [countUngrab, List.cons_append, ih] <;> omega

theorem xLoopBody_no_ungrab (steps : List LoopStep) :
    countUngrab (MouseXCount.loopBody steps) = 0 := by
  induction steps with
  | nil => rfl
  | cons s rest ih =>
    cases s with
    | ev e =>
      simp only [MouseXCount.loopBody]
      rw [countUngrab_append, ih]
      split_ifs <;> rfl
    | stopSignal => rfl
    | readError => rfl

theorem pLoopBody_no_ungrab (steps : List LoopStep) :
    countUngrab (MouseTester.loopBody steps) = 0 := by
  induction steps with
  | nil => rfl
  | cons s rest ih =>
    cases s with
    | ev e =>
      simp only [MouseTester.loopBody]
      rw [countUngrab_append, ih]
      split_ifs <;> rfl
    | stopSignal => rfl
    | readError => rfl

theorem foldl_stepEvent_path (events : List InputEvent) :
    ∀ t : MouseTester.MouseTracker,
      (List.foldl MouseTester.stepEvent t events).path_data
        = t.path_data ++ MouseTester.genPoints t.current_x t.current_y events := by
  induction events with
  | nil => intro t; simp [MouseTester.genPoints]
  | cons e rest ih =>
    intro t
    simp only [List.foldl_cons]
    rw [ih]
    simp only [MouseTester.stepEvent, MouseTester.genPoints]
    split_ifs <;> simp

theorem foldl_stepEvent_x (events : List InputEvent) :
    ∀ t : MouseTester.MouseTracker,
      (List.foldl MouseTester.stepEvent t events).current_x
        = t.current_x + sumX events := by
  induction events with
  | nil => intro t; simp [sumX]
  | cons e rest ih =>
    intro t
    simp only [List.foldl_cons]
    rw [ih]
    simp only [MouseTester.stepEvent, sumX]
    split_ifs <;> simp <;> omega

theorem foldl_stepEvent_y (events : List InputEvent) :
    ∀ t : MouseTester.MouseTracker,
      (List.foldl MouseTester.stepEvent t events).current_y
        = t.current_y - sumY events := by
  induction events with
  | nil => intro t; simp [sumY]
  | cons e rest ih =>
    intro t
    simp only [List.foldl_cons]
    rw [ih]
    simp only [MouseTester.stepEvent, sumY, EV_REL, REL_X, REL_Y]
    split_ifs <;> simp <;> omega

theorem foldl_stepEvent_last (events : List InputEvent) :
    ∀ t : MouseTester.MouseTracker,
      (∃ ts, t.path_data.getLast? = some ⟨ts, t.current_x, t.current_y⟩) →
      ∃ ts, (List.foldl MouseTester.stepEvent t events).path_data.getLast?
        = some ⟨ts, (List.foldl MouseTester.stepEvent t events).current_x,
                 (List.foldl MouseTester.stepEvent t events).current_y⟩ := by
  induction events with
  | nil => intro t h; exact h
  | cons e rest ih =>
    intro t h
    simp only [List.foldl_cons]
    apply ih
    obtain ⟨ts, hts⟩ := h
    by_cases h1 : e.type = EV_REL
    · by_cases h2 : e.code = REL_X
      · exact ⟨e.timestamp, by simp [MouseTester.stepEvent, h1, h2, List.getLast?_concat]⟩
      · by_cases h3 : e.code = REL_Y
        · exact ⟨e.timestamp, by simp [MouseTester.stepEvent, h1, h2, h3, REL_X, REL_Y,
            List.getLast?_concat]⟩
        · exact ⟨e.timestamp, by simp [MouseTester.stepEvent, h1, h2, h3, List.getLast?_concat]⟩
    · exact ⟨ts, by simpa [MouseTester.stepEvent, h1] using hts⟩

theorem chainFrom_genPoints (events : List InputEvent) :
    ∀ p : MouseTester.PathPoint,
      (∀ e ∈ events, e.type = EV_REL ∧ (e.code = REL_X ∨ e.code = REL_Y)) →
      MouseTester.chainFrom p (MouseTester.genPoints p.x p.y events) events = true := by
  induction events with
  | nil => intro p _; simp [MouseTester.genPoints, MouseTester.chainFrom]
  | cons e rest ih =>
    intro p h
    obtain ⟨h1, h2⟩ := h e (List.mem_cons_self e rest)
    have hrest : ∀ e' ∈ rest, e'.type = EV_REL ∧ (e'.code = REL_X ∨ e'.code = REL_Y) :=
      fun e' he' => h e' (List.mem_cons_of_mem e he')
    rcases h2 with hx | hy
    · have hrec := ih ⟨e.timestamp, p.x + e.value, p.y⟩ hrest
      simp only [MouseTester.genPoints, MouseTester.chainFrom, h1, hx, if_true,
        Bool.and_eq_true, decide_eq_true_eq]
      exact ⟨by simp, by simpa using hrec⟩
    · have hnx : ¬ e.code = REL_X := by rw [hy]; decide
      have hrec := ih ⟨e.timestamp, p.x, p.y + (- e.value)⟩ hrest
      simp only [MouseTester.genPoints, MouseTester.chainFrom, h1, hy, hnx, if_true,
        if_false, Bool.and_eq_true, decide_eq_true_eq]
      refine ⟨?_, by simpa using hrec⟩
      simp [sub_eq_add_neg, REL_X, REL_Y]

theorem genPoints_timestamps (events : List InputEvent) :
    ∀ x y : Int,
      (MouseTester.genPoints x y events).map MouseTester.PathPoint.timestamp
        = relTimestamps events := by
  induction events with
  | nil => intro x y; simp [MouseTester.genPoints, relTimestamps]
  | cons e rest ih =>
    intro x y
    simp only [MouseTester.genPoints, relTimestamps]
    split_ifs <;> simp [ih]

theorem stop_tracking_path (t : MouseTester.MouseTracker) (b : Bool) :
    (MouseTester.stop_tracking t b).1.path_data = t.path_data := by
  unfold MouseTester.stop_tracking
  split_ifs <;> rfl

theorem getLast_cons_concat (a u : DeviceAction) (l : List DeviceAction) :
    (a :: (l ++ [u])).getLast? = some u := by
  rw [← List.cons_append, List.getLast?_concat]

/-! ## Claim theorems -/

/-- Claim C1: for every sequence of events processed by the scalar variant's
event loop, get_total_x_movement afterwards returns the arithmetic sum of the
horizontal deltas (vertical and other events contribute nothing), and the
scenario (Horizontal, +5), (Horizontal, -2), (Horizontal, +10) yields 13. -/
theorem c1_total_is_sum_of_horizontal_deltas :
    (∀ events : List InputEvent,
      MouseXCount.get_total_x_movement
          (MouseXCount.event_loop_accumulate
            (MouseXCount.start_tracking MouseXCount.MouseTracker.init).1 events)
        = sumX events)
    ∧ MouseXCount.get_total_x_movement
        (MouseXCount.event_loop_accumulate
          (MouseXCount.start_tracking MouseXCount.MouseTracker.init).1
          [⟨EV_REL, REL_X, 5, 0⟩, ⟨EV_REL, REL_X, -2, 1⟩, ⟨EV_REL, REL_X, 10, 2⟩])
      = 13 := by
  constructor
  · intro events
    simp [MouseXCount.get_total_x_movement, MouseXCount.event_loop_accumulate,
      runEvents_add, MouseXCount.start_tracking, MouseXCount.MouseTracker.init]
  · decide

/-- Claim C2: for every sequence of mixed-axis motion events processed by the
path variant from a fresh tracker, the recorded path starts at (t0, 0, 0),
every subsequent point follows its predecessor by the event's signed delta on
its axis (vertical sign-inverted, other axis unchanged), and the final point's
coordinates are (sum of horizontal deltas, negated sum of vertical deltas). -/
theorem c2_path_cumulative_sums (t0 : Int) (events : List InputEvent)
    (h : ∀ e ∈ events, e.type = EV_REL ∧ (e.code = REL_X ∨ e.code = REL_Y)) :
    MouseTester.get_path
        (MouseTester.event_loop_record
          (MouseTester.start_tracking MouseTester.MouseTracker.init).1 t0 events)
      = ⟨t0, 0, 0⟩ :: MouseTester.genPoints 0 0 events
    ∧ MouseTester.chainFrom ⟨t0, 0, 0⟩ (MouseTester.genPoints 0 0 events) events = true
    ∧ ∃ tEnd,
        (MouseTester.get_path
            (MouseTester.event_loop_record
              (MouseTester.start_tracking MouseTester.MouseTracker.init).1 t0 events)).getLast?
          = some ⟨tEnd, sumX events, - sumY events⟩ := by
  refine ⟨?_, ?_, ?_⟩
  · show (List.foldl MouseTester.stepEvent
        ⟨true, true, [⟨t0, 0, 0⟩], 0, 0⟩ events).path_data = _
    rw [foldl_stepEvent_path]
    simp
  · simpa using chainFrom_genPoints events ⟨t0, 0, 0⟩ h
  · obtain ⟨ts, hts⟩ :=
      foldl_stepEvent_last events ⟨true, true, [⟨t0, 0, 0⟩], 0, 0⟩ ⟨t0, by simp⟩
    refine ⟨ts, ?_⟩
    show (List.foldl MouseTester.stepEvent
        ⟨true, true, [⟨t0, 0, 0⟩], 0, 0⟩ events).path_data.getLast? = _
    rw [hts, foldl_stepEvent_x, foldl_stepEvent_y]
    norm_num

/-- Claim C2 witness: the scenario (Horizontal, +3) then (Vertical, +4) from a
fresh tracker yields the path [(t0, 0, 0), (t1, 3, 0), (t2, 3, -4)]. -/
theorem c2_scenario_witness :
    (∀ e ∈ ([⟨EV_REL, REL_X, 3, 1⟩, ⟨EV_REL, REL_Y, 4, 2⟩] : List InputEvent),
      e.type = EV_REL ∧ (e.code = REL_X ∨ e.code = REL_Y))
    ∧ MouseTester.get_path
        (MouseTester.event_loop_record
          (MouseTester.start_tracking MouseTester.MouseTracker.init).1 0
          [⟨EV_REL, REL_X, 3, 1⟩, ⟨EV_REL, REL_Y, 4, 2⟩])
      = [⟨0, 0, 0⟩, ⟨1, 3, 0⟩, ⟨2, 3, -4⟩] :=
  ⟨by decide,
    (c2_path_cumulative_sums 0 [⟨EV_REL, REL_X, 3, 1⟩, ⟨EV_REL, REL_Y, 4, 2⟩]
        (by decide)).1.trans (by decide)⟩

/-- Claim C3 counterexample: a first session accumulating +5 followed by
stop, start and a second session accumulating +2 reports a total of 7, while
the same second session run on a fresh tracker reports 2 — the accumulated
result does not depend only on the events of the second session. -/
theorem c3_counterexample :
    MouseXCount.get_total_x_movement
        (MouseXCount.runSession
          (MouseXCount.stop_tracking
            (MouseXCount.runSession MouseXCount.MouseTracker.init
              [⟨EV_REL, REL_X, 5, 0⟩]) true).1
          [⟨EV_REL, REL_X, 2, 1⟩])
      = 7
    ∧ MouseXCount.get_total_x_movement
        (MouseXCount.runSession MouseXCount.MouseTracker.init
          [⟨EV_REL, REL_X, 2, 1⟩])
      = 2 := by
  constructor <;> decide

/-- Claim C3 amended: starting a new session performs no reset, so the
accumulated state persists across sessions. After stop; start; events; stop,
the scalar total equals the previous total plus the sum of the new session's
horizontal deltas, and the path variant appends to the old path a new start
point carrying the previous cumulative position followed by points that
continue from it. -/
theorem c3_amended_state_persists (tx : MouseXCount.MouseTracker)
    (tp : MouseTester.MouseTracker) (t0 : Int) (events : List InputEvent)
    (hx : tx.tracking_thread = false) (hp : tp.tracking_thread = false) :
    MouseXCount.get_total_x_movement
        (MouseXCount.runSession (MouseXCount.stop_tracking tx true).1 events)
      = tx.total_x_movement + sumX events
    ∧ MouseTester.get_path
        (MouseTester.runSession (MouseTester.stop_tracking tp true).1 t0 events)
      = tp.path_data
        ++ (⟨t0, tp.current_x, tp.current_y⟩
            :: MouseTester.genPoints tp.current_x tp.current_y events) := by
  constructor
  · have h1 : (MouseXCount.stop_tracking tx true).1 = tx := by
      simp [MouseXCount.stop_tracking, hx]
    rw [h1]
    have h2 : MouseXCount.start_tracking tx
        = ({ tx with is_running := true, tracking_thread := true },
           StartOutcome.started) := by
      simp [MouseXCount.start_tracking, hx]
    simp only [MouseXCount.runSession, h2]
    simp [MouseXCount.stop_tracking, MouseXCount.event_loop_accumulate,
      MouseXCount.get_total_x_movement, runEvents_add]
  · have h1 : (MouseTester.stop_tracking tp true).1 = tp := by
      simp [MouseTester.stop_tracking, hp]
    rw [h1]
    have h2 : MouseTester.start_tracking tp
        = ({ tp with is_running := true, tracking_thread := true },
           StartOutcome.started) := by
      simp [MouseTester.start_tracking, hp]
    simp only [MouseTester.runSession, h2]
    simp only [MouseTester.get_path, stop_tracking_path, MouseTester.event_loop_record]
    rw [foldl_stepEvent_path]
    simp

/-- Claim C3 amended witness: with a residual total of 5 and residual path
state, a second session over one +2 horizontal event yields total 7 and a
path continuing from the carried-over position. -/
theorem c3_amended_witness :
    ((⟨false, false, 5⟩ : MouseXCount.MouseTracker).tracking_thread = false)
    ∧ ((⟨false, false, [⟨0, 0, 0⟩, ⟨1, 3, 0⟩], 3, 0⟩ :
        MouseTester.MouseTracker).tracking_thread = false)
    ∧ (MouseXCount.get_total_x_movement
        (MouseXCount.runSession
          (MouseXCount.stop_tracking ⟨false, false, 5⟩ true).1
          [⟨EV_REL, REL_X, 2, 4⟩])
      = (5 : Int) + sumX [⟨EV_REL, REL_X, 2, 4⟩]
      ∧ MouseTester.get_path
          (MouseTester.runSession
            (MouseTester.stop_tracking ⟨false, false, [⟨0, 0, 0⟩, ⟨1, 3, 0⟩], 3, 0⟩ true).1
            4 [⟨EV_REL, REL_X, 2, 4⟩])
        = [⟨0, 0, 0⟩, ⟨1, 3, 0⟩]
          ++ (⟨4, 3, 0⟩ :: MouseTester.genPoints 3 0 [⟨EV_REL, REL_X, 2, 4⟩])) :=
  ⟨rfl, rfl,
    c3_amended_state_persists ⟨false, false, 5⟩
      ⟨false, false, [⟨0, 0, 0⟩, ⟨1, 3, 0⟩], 3, 0⟩ 4
      [⟨EV_REL, REL_X, 2, 4⟩] rfl rfl⟩

/-- Claim C4: on every exit path of the event consumption loop of either
variant — normal stop via the flag, end of stream, a grab failure or an error
raised while reading — the trace contains exactly one ungrab and it is the
last action before the loop's execution unit terminates. -/
theorem c4_ungrab_exactly_once (grabOk : Bool) (stepsX stepsP : List LoopStep) :
    countUngrab (MouseXCount.eventLoopActions grabOk stepsX) = 1
    ∧ (MouseXCount.eventLoopActions grabOk stepsX).getLast? = some DeviceAction.ungrab
    ∧ countUngrab (MouseTester.eventLoopActions grabOk stepsP) = 1
    ∧ (MouseTester.eventLoopActions grabOk stepsP).getLast? = some DeviceAction.ungrab := by
  refine ⟨?_, ?_, ?_, ?_⟩ <;> cases grabOk <;>
    simp [MouseXCount.eventLoopActions, MouseTester.eventLoopActions,
      countUngrab_append, xLoopBody_no_ungrab, pLoopBody_no_ungrab, countUngrab,
      List.getLast?_concat, getLast_cons_concat, List.getLast?_cons_cons]

/-- Claim C5 counterexample: stop_tracking on a Tracking controller whose
loop does not terminate within the join grace period still reports plain
success in both variants; it never reports a ShutdownTimeout condition. -/
theorem c5_counterexample :
    (MouseXCount.stop_tracking ⟨true, true, 0⟩ false).2 = StopOutcome.stoppedOk
    ∧ (MouseTester.stop_tracking ⟨true, true, [], 0, 0⟩ false).2 = StopOutcome.stoppedOk
    ∧ StopOutcome.stoppedOk ≠ StopOutcome.shutdownTimeout := by
  refine ⟨rfl, rfl, by decide⟩

/-- Claim C5 amended: stop_tracking on a Tracking controller signals the loop
to exit and joins with a bounded 1.0-second grace period, but it never
inspects whether the thread terminated: whatever the join's outcome, it
clears the thread slot, transitions to Idle and reports success, never a
ShutdownTimeout condition. -/
theorem c5_amended_stop_ignores_join_result (tx : MouseXCount.MouseTracker)
    (tp : MouseTester.MouseTracker) (bx bp : Bool)
    (hx1 : tx.tracking_thread = true) (hx2 : tx.is_running = true)
    (hp1 : tp.tracking_thread = true) (hp2 : tp.is_running = true) :
    MouseXCount.stop_tracking tx bx
      = ({ tx with is_running := false, tracking_thread := false },
         StopOutcome.stoppedOk)
    ∧ MouseTester.stop_tracking tp bp
      = ({ tp with is_running := false, tracking_thread := false },
         StopOutcome.stoppedOk) := by
  constructor <;>
    simp [MouseXCount.stop_tracking, MouseTester.stop_tracking, hx1, hx2, hp1, hp2]

/-- Claim C5 amended witness: a Tracking controller stopped while its thread
has not terminated (join argument false) still ends Idle reporting success. -/
theorem c5_amended_witness :
    ((⟨true, true, 3⟩ : MouseXCount.MouseTracker).tracking_thread = true)
    ∧ ((⟨true, true, 3⟩ : MouseXCount.MouseTracker).is_running = true)
    ∧ ((⟨true, true, [], 1, 2⟩ : MouseTester.MouseTracker).tracking_thread = true)
    ∧ ((⟨true, true, [], 1, 2⟩ : MouseTester.MouseTracker).is_running = true)
    ∧ (MouseXCount.stop_tracking ⟨true, true, 3⟩ false
        = (⟨false, false, 3⟩, StopOutcome.stoppedOk)
      ∧ MouseTester.stop_tracking ⟨true, true, [], 1, 2⟩ false
        = (⟨false, false, [], 1, 2⟩, StopOutcome.stoppedOk)) :=
  ⟨rfl, rfl, rfl, rfl,
    c5_amended_stop_ignores_join_result ⟨true, true, 3⟩ ⟨true, true, [], 1, 2⟩
      false false rfl rfl rfl rfl⟩

/-- Claim C6 counterexample: the code copies event timestamps verbatim, so a
path recorded from an event stream whose timestamp lies before the loop start
time is not monotonically non-decreasing. -/
theorem c6_counterexample :
    MouseTester.timestampsMonotone
      (MouseTester.get_path
        (MouseTester.event_loop_record
          (MouseTester.start_tracking MouseTester.MouseTracker.init).1 100
          [⟨EV_REL, REL_X, 1, 50⟩]))
      = false := by
  decide

/-- Claim C6 amended: the recorded path's timestamps are monotonically
non-decreasing provided the EV_REL events of the stream carry non-decreasing
timestamps bounded below by the loop start time; the loop itself copies
timestamps in stream order and enforces nothing. -/
theorem c6_amended_monotone_of_inputs (t0 : Int) (events : List InputEvent)
    (h : nondecreasingInt (t0 :: relTimestamps events) = true) :
    MouseTester.timestampsMonotone
      (MouseTester.get_path
        (MouseTester.event_loop_record
          (MouseTester.start_tracking MouseTester.MouseTracker.init).1 t0 events))
      = true := by
  have hpath : MouseTester.get_path
      (MouseTester.event_loop_record
        (MouseTester.start_tracking MouseTester.MouseTracker.init).1 t0 events)
    = ⟨t0, 0, 0⟩ :: MouseTester.genPoints 0 0 events := by
    show (List.foldl MouseTester.stepEvent
        ⟨true, true, [⟨t0, 0, 0⟩], 0, 0⟩ events).path_data = _
    rw [foldl_stepEvent_path]
    simp
  rw [hpath]
  unfold MouseTester.timestampsMonotone
  rw [List.map_cons, genPoints_timestamps]
  exact h

/-- Claim C6 amended witness: a stream with timestamps 1 then 2 after start
time 0 yields a monotone path. -/
theorem c6_amended_witness :
    nondecreasingInt
        (0 :: relTimestamps [⟨EV_REL, REL_X, 3, 1⟩, ⟨EV_REL, REL_Y, 4, 2⟩]) = true
    ∧ MouseTester.timestampsMonotone
        (MouseTester.get_path
          (MouseTester.event_loop_record
            (MouseTester.start_tracking MouseTester.MouseTracker.init).1 0
            [⟨EV_REL, REL_X, 3, 1⟩, ⟨EV_REL, REL_Y, 4, 2⟩]))
      = true :=
  ⟨by decide,
    c6_amended_monotone_of_inputs 0 [⟨EV_REL, REL_X, 3, 1⟩, ⟨EV_REL, REL_Y, 4, 2⟩]
      (by decide)⟩

/-- Claim C7 counterexample: only FileNotFoundError from the namespace
listing is caught, so a PermissionError raised by os.listdir propagates out
of find_all_mice instead of yielding an empty sequence. -/
theorem c7_counterexample :
    Enumeration.find_all_mice Enumeration.ListDirResult.permissionDenied
        (fun _ => Enumeration.OpenResult.ioError)
      = Enumeration.PyResult.raised := rfl

/-- Claim C7 amended: find_all_mice silently skips every candidate device
that fails to open or query and never raises while iterating candidates, and
it returns an empty sequence when the namespace listing raises
FileNotFoundError; however, other failures to read the namespace itself,
such as PermissionError, propagate as exceptions. In the concrete instance,
a failing event0 is skipped while the accessible mouse event1 is returned. -/
theorem c7_amended_enumeration_resilience (entries : List String)
    (openDev : String → Enumeration.OpenResult) :
    (∃ mice, Enumeration.find_all_mice (Enumeration.ListDirResult.ok entries) openDev
        = Enumeration.PyResult.ok mice)
    ∧ Enumeration.find_all_mice Enumeration.ListDirResult.fileNotFound openDev
      = Enumeration.PyResult.ok []
    ∧ Enumeration.find_all_mice (Enumeration.ListDirResult.ok ["event0", "event1"])
        Enumeration.exampleOpen
      = Enumeration.PyResult.ok [("/dev/input/event1", "Example Mouse")] :=
  ⟨⟨_, rfl⟩, rfl, by decide⟩

/-- Claim C8: start_tracking while a loop is already running reports that
tracking is already in progress, spawns no second loop (a session attempted
in that state changes nothing) and leaves the tracker unchanged; otherwise
it marks the tracker running with an occupied thread slot and reports that
tracking started. Both variants behave identically. -/
theorem c8_start_tracking_guard (tx : MouseXCount.MouseTracker)
    (tp : MouseTester.MouseTracker) :
    (tx.tracking_thread = true →
      MouseXCount.start_tracking tx = (tx, StartOutcome.alreadyInProgress)
      ∧ ∀ events, MouseXCount.runSession tx events = tx)
    ∧ (tx.tracking_thread = false →
      MouseXCount.start_tracking tx
        = ({ tx with is_running := true, tracking_thread := true },
           StartOutcome.started))
    ∧ (tp.tracking_thread = true →
      MouseTester.start_tracking tp = (tp, StartOutcome.alreadyInProgress)
      ∧ ∀ t0 events, MouseTester.runSession tp t0 events = tp)
    ∧ (tp.tracking_thread = false →
      MouseTester.start_tracking tp
        = ({ tp with is_running := true, tracking_thread := true },
           StartOutcome.started)) := by
  refine ⟨fun h => ⟨?_, ?_⟩, fun h => ?_, fun h => ⟨?_, ?_⟩, fun h => ?_⟩
  · simp [MouseXCount.start_tracking, h]
  · intro events
    have hs : MouseXCount.start_tracking tx = (tx, StartOutcome.alreadyInProgress) := by
      simp [MouseXCount.start_tracking, h]
    simp [MouseXCount.runSession, hs]
  · simp [MouseXCount.start_tracking, h]
  · simp [MouseTester.start_tracking, h]
  · intro t0 events
    have hs : MouseTester.start_tracking tp = (tp, StartOutcome.alreadyInProgress) := by
      simp [MouseTester.start_tracking, h]
    simp [MouseTester.runSession, hs]
  · simp [MouseTester.start_tracking, h]

/-- Claim C9: stop_tracking on an Idle tracker (empty thread slot) is a
no-op in both variants: it reports nothing beyond the silent branch and
leaves the tracker, including its accumulated results, unchanged. -/
theorem c9_stop_tracking_idle_noop (tx : MouseXCount.MouseTracker)
    (tp : MouseTester.MouseTracker) (bx bp : Bool)
    (hx : tx.tracking_thread = false) (hp : tp.tracking_thread = false) :
    MouseXCount.stop_tracking tx bx = (tx, StopOutcome.noop)
    ∧ MouseTester.stop_tracking tp bp = (tp, StopOutcome.noop) := by
  constructor <;> simp [MouseXCount.stop_tracking, MouseTester.stop_tracking, hx, hp]

/-- Claim C9 witness: an Idle scalar tracker with total 5 and an Idle path
tracker with a recorded point are returned unchanged with the no-op
outcome. -/
theorem c9_witness :
    ((⟨false, false, 5⟩ : MouseXCount.MouseTracker).tracking_thread = false)
    ∧ ((⟨false, false, [⟨0, 1, 2⟩], 1, 2⟩ : MouseTester.MouseTracker).tracking_thread = false)
    ∧ (MouseXCount.stop_tracking ⟨false, false, 5⟩ true
        = (⟨false, false, 5⟩, StopOutcome.noop)
      ∧ MouseTester.stop_tracking ⟨false, false, [⟨0, 1, 2⟩], 1, 2⟩ false
        = (⟨false, false, [⟨0, 1, 2⟩], 1, 2⟩, StopOutcome.noop)) :=
  ⟨rfl, rfl,
    c9_stop_tracking_idle_noop ⟨false, false, 5⟩ ⟨false, false, [⟨0, 1, 2⟩], 1, 2⟩
      true false rfl rfl⟩

/-- Claim C10: in the path variant, a relative-motion event whose code is
neither REL_X nor REL_Y (such as a scroll-wheel event) still appends a path
point that duplicates the previous cumulative position, lengthening the path
by one without moving it. -/
theorem c10_nonaxis_rel_appends_duplicate (t : MouseTester.MouseTracker)
    (e : InputEvent) (h1 : e.type = EV_REL) (h2 : e.code ≠ REL_X)
    (h3 : e.code ≠ REL_Y) :
    MouseTester.stepEvent t e
      = { t with path_data := t.path_data ++ [⟨e.timestamp, t.current_x, t.current_y⟩] }
    ∧ (MouseTester.stepEvent t e).path_data.length = t.path_data.length + 1
    ∧ (MouseTester.stepEvent t e).current_x = t.current_x
    ∧ (MouseTester.stepEvent t e).current_y = t.current_y := by
  have hstep : MouseTester.stepEvent t e
      = { t with path_data := t.path_data ++ [⟨e.timestamp, t.current_x, t.current_y⟩] } := by
    simp [MouseTester.stepEvent, h1, h2, h3]
  refine ⟨hstep, ?_, ?_, ?_⟩ <;> simp [hstep]

/-- Claim C10 witness: a scroll-wheel event (type EV_REL, code REL_WHEEL)
appends a duplicate of the current position (3, -4). -/
theorem c10_witness :
    ((⟨EV_REL, REL_WHEEL, 1, 7⟩ : InputEvent).type = EV_REL)
    ∧ ((⟨EV_REL, REL_WHEEL, 1, 7⟩ : InputEvent).code ≠ REL_X)
    ∧ ((⟨EV_REL, REL_WHEEL, 1, 7⟩ : InputEvent).code ≠ REL_Y)
    ∧ (MouseTester.stepEvent ⟨true, true, [⟨2, 3, -4⟩], 3, -4⟩ ⟨EV_REL, REL_WHEEL, 1, 7⟩
        = ⟨true, true, [⟨2, 3, -4⟩, ⟨7, 3, -4⟩], 3, -4⟩
      ∧ (MouseTester.stepEvent ⟨true, true, [⟨2, 3, -4⟩], 3, -4⟩
          ⟨EV_REL, REL_WHEEL, 1, 7⟩).path_data.length
        = ([⟨2, 3, -4⟩] : List MouseTester.PathPoint).length + 1
      ∧ (MouseTester.stepEvent ⟨true, true, [⟨2, 3, -4⟩], 3, -4⟩
          ⟨EV_REL, REL_WHEEL, 1, 7⟩).current_x = 3
      ∧ (MouseTester.stepEvent ⟨true, true, [⟨2, 3, -4⟩], 3, -4⟩
          ⟨EV_REL, REL_WHEEL, 1, 7⟩).current_y = -4) :=
  ⟨rfl, by decide, by decide,
    c10_nonaxis_rel_appends_duplicate ⟨true, true, [⟨2, 3, -4⟩], 3, -4⟩
      ⟨EV_REL, REL_WHEEL, 1, 7⟩ rfl (by decide) (by decide)⟩
